import Mathlib

/-!
Shallow embedding of the authentication/session core of the HW_13_REST
contacts API (src/services/auth.py, src/routes/auth.py,
src/repository/users.py, src/database/models.py).

Conventions of the embedding:
* A JWT string is modelled as its decoded claim set (`Payload`) together
  with a flag recording whether it is signed with the process signing key
  (`signedOk`).  `jwt.encode` with the server key is deterministic
  (HS256 signature, insertion-ordered JSON serialization), so two tokens
  built by the server are equal as strings iff their payloads are equal;
  `Token` equality models string equality.
* Timestamps are integers (Unix seconds, the granularity at which
  python-jose serializes `iat`/`exp`).  Both `datetime.utcnow()` calls
  inside one token-creation function are modelled by a single `now`.
* `payload["sub"]` is JSON-nullable, modelled as `Option String`; every
  token the service issues carries the `sub` key.  The `scope` key is
  absent from email-confirmation tokens, modelled as `scope = none`;
  reading `payload['scope']` on such a token raises `KeyError` in
  Python, modelled as a `runtimeError` outcome.
* The bcrypt `CryptContext` is an external collaborator: `hash` and
  `verify` are passed in as function parameters.
* Fallible handlers return `Res α`: `ok`, `httpError status detail`
  (a raised `HTTPException`), or `runtimeError` (an unhandled Python
  exception such as `AttributeError` on `None` or `KeyError`).
-/

namespace HW13

/-- Outcome of a route handler or service call: a returned value, a raised
`HTTPException` with status code and detail, or an unhandled Python runtime
exception (`AttributeError`, `KeyError`). -/
inductive Res (α : Type) where
  | ok : α → Res α
  | httpError : Nat → String → Res α
  | runtimeError : String → Res α
deriving DecidableEq, Repr

/-- Decoded JWT claim set as built by `Auth.create_access_token`,
`Auth.create_refresh_token` and `Auth.create_email_token`:
`sub` (nullable), optional `scope` discriminator, `iat` and `exp`
(Unix seconds). -/
structure Payload where
  sub : Option String
  scope : Option String
  iat : Int
  exp : Int
deriving DecidableEq, Repr

/-- A bearer token string: its claim set plus whether its signature
verifies against the process `SECRET_KEY`. -/
structure Token where
  payload : Payload
  signedOk : Bool
deriving DecidableEq, Repr

/-- Model of the `src/database/models.py` `User` row.  `created_at` is omitted (no
operation of the session core reads it); `id` is the store-assigned key.
`password` holds the bcrypt digest, `refresh_token` the live refresh
token string or NULL, `confirmed` defaults to `False`. -/
structure Account where
  id : Nat
  username : String
  email : String
  password : String
  avatar : Option String
  refresh_token : Option Token
  confirmed : Bool
deriving DecidableEq, Repr

/-- The Account Store: the `users` table, email unique. -/
abbrev Db := List Account

/-- The Identity Cache (`redis`): key-value pairs; an entry present means
an unexpired cached pickle of the account snapshot. -/
abbrev Cache := List (String × Account)

/-- Model of `jwt.decode(token, SECRET_KEY, algorithms=[ALGORITHM])`: returns the
claim set iff the signature verifies and the token is not expired
(python-jose raises `ExpiredSignatureError ⊂ JWTError` iff `exp < now`). -/
def jwtDecode (t : Token) (now : Int) : Option Payload :=
  if t.signedOk ∧ now ≤ t.payload.exp then some t.payload else none

/-- Embeds `Auth.create_email_token` (src/services/auth.py lines 59-72):
`exp = utcnow + timedelta(days=7)`, no `scope` key. -/
def create_email_token (sub : Option String) (now : Int) : Token :=
  ⟨⟨sub, none, now, now + 604800⟩, true⟩

/-- Embeds `Auth.create_access_token` (src/services/auth.py lines 75-93):
`if expires_delta:` uses Python truthiness, so `None` and `0` both fall
back to the 15-minute default; scope is `"access_token"`. -/
def create_access_token (sub : Option String) (expires_delta : Option Int) (now : Int) : Token :=
  let exp : Int :=
    match expires_delta with
    | some d => if d ≠ 0 then now + d else now + 900
    | none => now + 900
  ⟨⟨sub, some "access_token", now, exp⟩, true⟩

/-- Embeds `Auth.create_refresh_token` (src/services/auth.py lines 96-114):
7-day default, same truthiness on `expires_delta`; scope is
`"refresh_token"`. -/
def create_refresh_token (sub : Option String) (expires_delta : Option Int) (now : Int) : Token :=
  let exp : Int :=
    match expires_delta with
    | some d => if d ≠ 0 then now + d else now + 604800
    | none => now + 604800
  ⟨⟨sub, some "refresh_token", now, exp⟩, true⟩

/-- Embeds `Auth.decode_refresh_token` (src/services/auth.py lines 116-133):
`JWTError` → 401 "Could not validate credentials"; scope key read
(`KeyError` if absent); scope ≠ `"refresh_token"` → 401
"Invalid scope for token"; else returns `payload['sub']`. -/
def decode_refresh_token (t : Token) (now : Int) : Res (Option String) :=
  match jwtDecode t now with
  | none => .httpError 401 "Could not validate credentials"
  | some p =>
    match p.scope with
    | none => .runtimeError "KeyError"
    | some s =>
      if s = "refresh_token" then .ok p.sub
      else .httpError 401 "Invalid scope for token"

/-- Embeds `Auth.get_email_from_token` (src/services/auth.py lines 179-196):
`JWTError` → 422 "Invalid token for email verification"; on success
returns `payload["sub"]` with NO scope check. -/
def get_email_from_token (t : Token) (now : Int) : Res (Option String) :=
  match jwtDecode t now with
  | none => .httpError 422 "Invalid token for email verification"
  | some p => .ok p.sub

/-- Embeds `repository.users.get_user_by_email` (src/repository/users.py lines
11-27): `SELECT ... WHERE email = :email`, one row or none; a `None`
email matches no row (the column is non-null). -/
def get_user_by_email (email : Option String) (db : Db) : Option Account :=
  match email with
  | none => none
  | some e => db.find? (fun a => a.email = e)

/-- Embeds `repository.users.update_token` (src/repository/users.py lines
54-66): sets `user.refresh_token` and commits; the row is identified by
its unique email. -/
def update_token (u : Account) (tok : Option Token) (db : Db) : Db :=
  db.map (fun a => if a.email = u.email then { a with refresh_token := tok } else a)

/-- Embeds `repository.users.confirmed_email` (src/repository/users.py lines
69-83): looks the user up by email and sets `confirmed = True`.  The
route calls it only after its own existence check, so the lookup
succeeds there; on a missing row this is a no-op in the model. -/
def confirmed_email_repo (email : Option String) (db : Db) : Db :=
  db.map (fun a => if some a.email = email then { a with confirmed := true } else a)

/-- Embeds `repository.users.create_user` (src/repository/users.py lines
30-51) as called from the signup route: new row with the caller-supplied
(already hashed) password, gravatar result as avatar, store-assigned id,
column defaults `refresh_token = NULL`, `confirmed = False`. -/
def create_user (username email hashedPw : String) (avatar : Option String) (db : Db) : Account :=
  ⟨db.length, username, email, hashedPw, avatar, none, false⟩

/-- Embeds `routes.auth.signup` (src/routes/auth.py lines 18-42): 409
"Account already exists" if the email is taken; else hashes the password
via the Credential Hasher `hash` and inserts the new account. -/
def signup (username email pw : String) (hash : String → String) (avatar : Option String)
    (db : Db) : Res Account × Db :=
  match get_user_by_email (some email) db with
  | some _ => (.httpError 409 "Account already exists", db)
  | none =>
    let nu := create_user username email (hash pw) avatar db
    (.ok nu, db ++ [nu])

/-- The JSON body returned by login / refresh. -/
structure TokenPair where
  access_token : Token
  refresh_token : Token
  token_type : String
deriving DecidableEq, Repr

/-- Embeds `routes.auth.login` (src/routes/auth.py lines 45-68): 401
"Invalid email" if no account; 401 "Email not confirmed" if
unconfirmed; 401 "Invalid password" if bcrypt `verify` fails; else
issues the access+refresh pair (default lifetimes), stores the refresh
token on the account and returns both with `token_type = "bearer"`. -/
def login (username pw : String) (verify : String → String → Bool) (now : Int)
    (db : Db) : Res TokenPair × Db :=
  match get_user_by_email (some username) db with
  | none => (.httpError 401 "Invalid email", db)
  | some u =>
    if ¬ u.confirmed then (.httpError 401 "Email not confirmed", db)
    else if ¬ verify pw u.password then (.httpError 401 "Invalid password", db)
    else
      let a := create_access_token (some u.email) none now
      let r := create_refresh_token (some u.email) none now
      (.ok ⟨a, r, "bearer"⟩, update_token u (some r) db)

/-- Embeds `routes.auth.refresh_token` (src/routes/auth.py lines 71-93):
decodes with `decode_refresh_token`; looks the account up by the decoded
subject and reads `user.refresh_token` WITHOUT a `None` check
(`AttributeError` when the account is absent); on mismatch clears the
stored token and raises 401 "Invalid refresh token"; on match issues and
stores a fresh pair. -/
def refresh_token_route (t : Token) (now : Int) (db : Db) : Res TokenPair × Db :=
  match decode_refresh_token t now with
  | .httpError c d => (.httpError c d, db)
  | .runtimeError m => (.runtimeError m, db)
  | .ok email =>
    match get_user_by_email email db with
    | none => (.runtimeError "AttributeError", db)
    | some u =>
      if u.refresh_token ≠ some t then
        (.httpError 401 "Invalid refresh token", update_token u none db)
      else
        let a := create_access_token email none now
        let r := create_refresh_token email none now
        (.ok ⟨a, r, "bearer"⟩, update_token u (some r) db)

/-- Embeds `routes.auth.confirmed_email` (src/routes/auth.py lines 96-115):
decodes via `get_email_from_token`; 400 "Verification error" if no such
account; "Your email is already confirmed" without touching state if
already confirmed; else marks the account confirmed. -/
def confirmed_email_route (t : Token) (now : Int) (db : Db) : Res String × Db :=
  match get_email_from_token t now with
  | .httpError c d => (.httpError c d, db)
  | .runtimeError m => (.runtimeError m, db)
  | .ok email =>
    match get_user_by_email email db with
    | none => (.httpError 400 "Verification error", db)
    | some u =>
      if u.confirmed then (.ok "Your email is already confirmed", db)
      else (.ok "Email confirmed", confirmed_email_repo email db)

/-- Observable outcome of `routes.auth.request_email`: the response (or
crash) and whether a confirmation email was queued via
`background_tasks.add_task`. -/
structure ResendOutcome where
  result : Res String
  emailSent : Bool
deriving DecidableEq, Repr

/-- Embeds `routes.auth.request_email` (src/routes/auth.py lines 118-141):
reads `user.confirmed` BEFORE any existence check (`AttributeError` on
an absent account); early-returns if already confirmed; the `if user:`
existence guard then necessarily sees a truthy user and queues the
email. -/
def request_email_route (email : String) (db : Db) : ResendOutcome :=
  match get_user_by_email (some email) db with
  | none => ⟨.runtimeError "AttributeError", false⟩
  | some u =>
    if u.confirmed then ⟨.ok "Your email is already confirmed", false⟩
    else ⟨.ok "Check your email for confirmation.", true⟩

/-- Model of the `redis` GET on the Identity Cache. -/
def cacheGet (c : Cache) (k : String) : Option Account :=
  (c.find? (fun e => e.fst = k)).map (fun e => e.snd)

/-- Model of the `redis` SET on the Identity Cache (last write wins). -/
def cacheSet (c : Cache) (k : String) (v : Account) : Cache :=
  (k, v) :: c.filter (fun e => e.fst ≠ k)

/-- Observable outcome of one `Auth.get_current_user` call: the resolved
identity (or failure), how many times the Account Store was queried, and
the cache write performed (key, pickled snapshot, TTL in seconds), if
any. -/
structure IdentityOutcome where
  result : Res Account
  storeLookups : Nat
  cachePut : Option (String × Account × Nat)
deriving DecidableEq, Repr

/-- Embeds `Auth.get_current_user` (src/services/auth.py lines 135-177):
decode and scope/sub checks all map to 401 "Could not validate
credentials" (a missing scope key raises `KeyError`); then the Account
Store is queried unconditionally (line 165); the `user` variable is then
OVERWRITTEN by the redis GET (line 168); on cache miss the store is
queried a second time and the snapshot cached under `user:{email}` with
`EXPIRE 900`; on cache hit the unpickled snapshot is returned. -/
def get_current_user (t : Token) (now : Int) (db : Db) (cache : Cache) :
    IdentityOutcome × Cache :=
  match jwtDecode t now with
  | none => (⟨.httpError 401 "Could not validate credentials", 0, none⟩, cache)
  | some p =>
    match p.scope with
    | none => (⟨.runtimeError "KeyError", 0, none⟩, cache)
    | some s =>
      if s = "access_token" then
        match p.sub with
        | none => (⟨.httpError 401 "Could not validate credentials", 0, none⟩, cache)
        | some email =>
          match get_user_by_email (some email) db with
          | none => (⟨.httpError 401 "Could not validate credentials", 1, none⟩, cache)
          | some _ =>
            match cacheGet cache ("user:" ++ email) with
            | none =>
              match get_user_by_email (some email) db with
              | none => (⟨.httpError 401 "Could not validate credentials", 2, none⟩, cache)
              | some u =>
                (⟨.ok u, 2, some ("user:" ++ email, u, 900)⟩,
                  cacheSet cache ("user:" ++ email) u)
            | some c => (⟨.ok c, 1, none⟩, cache)
      else (⟨.httpError 401 "Could not validate credentials", 0, none⟩, cache)

/-! ### Helper lemmas about store lookups -/

theorem get_user_some_eq (e : String) (db : Db) :
    get_user_by_email (some e) db = db.find? (fun a => a.email = e) := rfl

theorem find?_map_email_eq (e : String) (f : Account → Account)
    (hf : ∀ a, (f a).email = a.email) :
    ∀ db : List Account,
      (db.map f).find? (fun a => a.email = e) = (db.find? (fun a => a.email = e)).map f := by
  intro db
  induction db with
  | nil => rfl
  | cons a l ih =>
    by_cases h : a.email = e
    · have hfa : (f a).email = e := by rw [hf]; exact h
      simp [List.find?_cons, h, hfa]
    · have hfa : ¬ (f a).email = e := by rw [hf]; exact h
      simp [List.find?_cons, h, hfa, ih]

theorem get_user_map_email_eq (e : String) (f : Account → Account)
    (hf : ∀ a, (f a).email = a.email) (db : Db) :
    get_user_by_email (some e) (db.map f) = (get_user_by_email (some e) db).map f := by
  rw [get_user_some_eq, get_user_some_eq, find?_map_email_eq e f hf]

theorem get_user_update_token (e : String) (u : Account) (tok : Option Token) (db : Db) :
    get_user_by_email (some e) (update_token u tok db) =
      (get_user_by_email (some e) db).map
        (fun a => if a.email = u.email then { a with refresh_token := tok } else a) := by
  apply get_user_map_email_eq
  intro a
  dsimp only
  split <;> rfl

theorem get_user_confirmed_repo (e : String) (em : Option String) (db : Db) :
    get_user_by_email (some e) (confirmed_email_repo em db) =
      (get_user_by_email (some e) db).map
        (fun a => if some a.email = em then { a with confirmed := true } else a) := by
  apply get_user_map_email_eq
  intro a
  dsimp only
  split <;> rfl

theorem get_user_append_of_some (e : String) (u : Account) (db l : Db)
    (h : get_user_by_email (some e) db = some u) :
    get_user_by_email (some e) (db ++ l) = some u := by
  rw [get_user_some_eq] at h ⊢
  rw [List.find?_append, h]
  rfl

theorem get_user_email_matches (e : String) (u : Account) (db : Db)
    (h : get_user_by_email (some e) db = some u) : u.email = e := by
  rw [get_user_some_eq] at h
  have := List.find?_some h
  exact of_decide_eq_true this

/-- Sample confirmed account used by concrete witnesses. -/
def sampleAccount : Account :=
  ⟨0, "ann", "a@x.com", "HASH", none, none, true⟩

/-- Sample bcrypt `verify` collaborator used by concrete witnesses. -/
def sampleVerify : String → String → Bool :=
  fun p h => p = "pw" && h = "HASH"

/-! ### Claim theorems -/

/-- C9: for every refresh call whose refresh token decodes validly but
whose subject email matches no account, the handler dereferences the
absent account (`user.refresh_token` on `None`) and fails with an
unhandled runtime error (`AttributeError`) instead of a typed failure. -/
theorem c9_refresh_absent_account_crashes (t : Token) (now : Int) (db : Db) (e : Option String)
    (hdec : decode_refresh_token t now = .ok e)
    (habs : get_user_by_email e db = none) :
    refresh_token_route t now db = (.runtimeError "AttributeError", db) := by
  simp only [refresh_token_route, hdec, habs]

theorem c9_witness :
    decode_refresh_token (create_refresh_token (some "a@x.com") none 0) 5 = .ok (some "a@x.com") ∧
    get_user_by_email (some "a@x.com") [] = none ∧
    refresh_token_route (create_refresh_token (some "a@x.com") none 0) 5 [] =
      (.runtimeError "AttributeError", []) :=
  ⟨by decide, rfl,
    c9_refresh_absent_account_crashes (create_refresh_token (some "a@x.com") none 0) 5 []
      (some "a@x.com") (by decide) rfl⟩

/-- C10: for every resend request whose email matches no account, the
handler reads `user.confirmed` on `None` before its existence guard and
crashes with an unhandled runtime error; the `if user:` existence guard
(observable as the email actually being queued) is therefore reached
exactly when the account exists and is unconfirmed. -/
theorem c10_request_email_none_deref (email : String) (db : Db) :
    (get_user_by_email (some email) db = none →
      request_email_route email db = ⟨.runtimeError "AttributeError", false⟩) ∧
    (∀ u, get_user_by_email (some email) db = some u → u.confirmed = true →
      request_email_route email db = ⟨.ok "Your email is already confirmed", false⟩) ∧
    (∀ u, get_user_by_email (some email) db = some u → u.confirmed = false →
      request_email_route email db = ⟨.ok "Check your email for confirmation.", true⟩) ∧
    ((request_email_route email db).emailSent = true ↔
      ∃ u, get_user_by_email (some email) db = some u ∧ u.confirmed = false) := by
  refine ⟨fun h => by simp [request_email_route, h],
    fun u hu hc => by simp [request_email_route, hu, hc],
    fun u hu hc => by simp [request_email_route, hu, hc], ?_⟩
  unfold request_email_route
  cases hu : get_user_by_email (some email) db with
  | none => simp
  | some u =>
    by_cases hc : u.confirmed = true
    · simp [hc]
    · simp only [Bool.not_eq_true] at hc
      simp [hc]

theorem c10_witness :
    get_user_by_email (some "a@x.com") [] = none ∧
    request_email_route "a@x.com" [] = ⟨.runtimeError "AttributeError", false⟩ :=
  ⟨rfl, (c10_request_email_none_deref "a@x.com" []).1 rfl⟩

/-- C4: login fails 401 "Invalid email" when no account has the email,
else 401 "Email not confirmed" when unconfirmed, else 401
"Invalid password" when bcrypt verification fails, in exactly that order
(each earlier failure fires regardless of the later conditions); on
success it issues one access and one refresh token with default
lifetimes, stores the refresh token on the account, and returns both
with `token_type = "bearer"`. -/
theorem c4_login_checks (username pw : String) (verify : String → String → Bool)
    (now : Int) (db : Db) :
    (get_user_by_email (some username) db = none →
      login username pw verify now db = (.httpError 401 "Invalid email", db)) ∧
    (∀ u, get_user_by_email (some username) db = some u → u.confirmed = false →
      login username pw verify now db = (.httpError 401 "Email not confirmed", db)) ∧
    (∀ u, get_user_by_email (some username) db = some u → u.confirmed = true →
      verify pw u.password = false →
      login username pw verify now db = (.httpError 401 "Invalid password", db)) ∧
    (∀ u, get_user_by_email (some username) db = some u → u.confirmed = true →
      verify pw u.password = true →
      login username pw verify now db =
        (.ok ⟨create_access_token (some u.email) none now,
              create_refresh_token (some u.email) none now, "bearer"⟩,
         update_token u (some (create_refresh_token (some u.email) none now)) db) ∧
      get_user_by_email (some username)
          (update_token u (some (create_refresh_token (some u.email) none now)) db) =
        some { u with refresh_token := some (create_refresh_token (some u.email) none now) }) := by
  refine ⟨fun h => by simp [login, h],
    fun u hu hc => by simp [login, hu, hc],
    fun u hu hc hv => by simp [login, hu, hc, hv],
    fun u hu hc hv => ⟨by simp [login, hu, hc, hv], ?_⟩⟩
  rw [get_user_update_token, hu]
  simp

theorem c4_witness :
    get_user_by_email (some "a@x.com") [sampleAccount] = some sampleAccount ∧
    sampleAccount.confirmed = true ∧
    sampleVerify "pw" sampleAccount.password = true ∧
    login "a@x.com" "pw" sampleVerify 7 [sampleAccount] =
      (.ok ⟨create_access_token (some "a@x.com") none 7,
            create_refresh_token (some "a@x.com") none 7, "bearer"⟩,
       [{ sampleAccount with
            refresh_token := some (create_refresh_token (some "a@x.com") none 7) }]) := by
  refine ⟨by decide, by decide, by decide, ?_⟩
  have h := ((c4_login_checks "a@x.com" "pw" sampleVerify 7 [sampleAccount]).2.2.2
    sampleAccount (by decide) (by decide) (by decide)).1
  rw [h]
  decide

/-- C7: signup fails 409 "Account already exists" when the email is
present in the store; otherwise it creates an account whose `confirmed`
flag is false and whose stored password is the hash of the input
password — and hence not the plaintext whenever the hasher is
non-identical. -/
theorem c7_signup_creates_unconfirmed (username email pw : String) (hash : String → String)
    (avatar : Option String) (db : Db) :
    (∀ u, get_user_by_email (some email) db = some u →
      signup username email pw hash avatar db = (.httpError 409 "Account already exists", db)) ∧
    (get_user_by_email (some email) db = none →
      signup username email pw hash avatar db =
        (.ok (create_user username email (hash pw) avatar db),
         db ++ [create_user username email (hash pw) avatar db]) ∧
      (create_user username email (hash pw) avatar db).confirmed = false ∧
      (create_user username email (hash pw) avatar db).refresh_token = none ∧
      (create_user username email (hash pw) avatar db).password = hash pw ∧
      ((∀ p, hash p ≠ p) →
        (create_user username email (hash pw) avatar db).password ≠ pw)) := by
  refine ⟨fun u hu => by simp [signup, hu],
    fun h => ⟨by simp [signup, h], rfl, rfl, rfl, fun hno => hno pw⟩⟩

theorem c7_witness :
    get_user_by_email (some "b@x.com") [] = none ∧
    signup "bob" "b@x.com" "pw" (fun s => "h:" ++ s) none [] =
      (.ok ⟨0, "bob", "b@x.com", "h:pw", none, none, false⟩,
       [⟨0, "bob", "b@x.com", "h:pw", none, none, false⟩]) ∧
    (⟨0, "bob", "b@x.com", "h:pw", none, none, false⟩ : Account).confirmed = false := by
  refine ⟨rfl, ?_, rfl⟩
  have h := ((c7_signup_creates_unconfirmed "bob" "b@x.com" "pw"
    (fun s => "h:" ++ s) none []).2 rfl).1
  rw [h]
  rfl

/-- C8 counterexample: a caller-supplied lifetime override of `0` seconds
is falsy in Python (`if expires_delta:`), so the token's expiry is
`issuedAt + 900` (the 15-minute default), not `issuedAt + 0` as the
claim requires for every caller-supplied override; likewise for refresh
tokens, where `0` yields the 7-day default. -/
theorem c8_counterexample :
    (create_access_token (some "a@x.com") (some 0) 10).payload.exp ≠ 10 + 0 ∧
    (create_access_token (some "a@x.com") (some 0) 10).payload.exp = 10 + 900 ∧
    (create_refresh_token (some "a@x.com") (some 0) 10).payload.exp ≠ 10 + 0 ∧
    (create_refresh_token (some "a@x.com") (some 0) 10).payload.exp = 10 + 604800 := by
  decide

/-- C8 (amended): without an override, `expiresAt = issuedAt + 900 s`
(15 minutes) for access tokens and `issuedAt + 604800 s` (7 days) for
refresh and email-confirmation tokens; a caller-supplied NONZERO
override `d` gives `expiresAt = issuedAt + d` for access and refresh
tokens, while an override of `0` falls back to the default (Python
truthiness of `expires_delta`). -/
theorem c8_token_lifetimes (sub : Option String) (now : Int) :
    (create_access_token sub none now).payload.iat = now ∧
    (create_access_token sub none now).payload.exp = now + 900 ∧
    (create_refresh_token sub none now).payload.iat = now ∧
    (create_refresh_token sub none now).payload.exp = now + 604800 ∧
    (create_email_token sub now).payload.iat = now ∧
    (create_email_token sub now).payload.exp = now + 604800 ∧
    (∀ d : Int, d ≠ 0 →
      (create_access_token sub (some d) now).payload.exp = now + d ∧
      (create_refresh_token sub (some d) now).payload.exp = now + d) ∧
    (create_access_token sub (some 0) now).payload.exp = now + 900 ∧
    (create_refresh_token sub (some 0) now).payload.exp = now + 604800 := by
  refine ⟨rfl, rfl, rfl, rfl, rfl, rfl, fun d hd => ?_, by simp [create_access_token],
    by simp [create_refresh_token]⟩
  constructor
  · simp [create_access_token, hd]
  · simp [create_refresh_token, hd]

theorem c8_witness :
    (3 : Int) ≠ 0 ∧
    (create_access_token (some "a@x.com") (some 3) 10).payload.exp = 10 + 3 ∧
    (create_refresh_token (some "a@x.com") (some 3) 10).payload.exp = 10 + 3 :=
  ⟨by decide, ((c8_token_lifetimes (some "a@x.com") 10).2.2.2.2.2.2.1 3 (by decide)).1,
    ((c8_token_lifetimes (some "a@x.com") 10).2.2.2.2.2.2.1 3 (by decide)).2⟩

/-- C1 counterexample: a validly signed, unexpired token carrying
`scope = "refresh_token"` is ACCEPTED by `get_email_from_token` (which
never inspects the scope), and the confirm-email route then confirms
the account with it — contradicting the claim that a token whose scope
is not the operation's expected one is always rejected. -/
theorem c1_counterexample :
    (create_refresh_token (some "a@x.com") none 0).payload.scope = some "refresh_token" ∧
    get_email_from_token (create_refresh_token (some "a@x.com") none 0) 5 =
      .ok (some "a@x.com") ∧
    (confirmed_email_route (create_refresh_token (some "a@x.com") none 0) 5
        [⟨0, "ann", "a@x.com", "HASH", none, none, false⟩]).1 = .ok "Email confirmed" := by
  decide

/-- C1 (amended): the access-expecting operation (`get_current_user`)
and the refresh-expecting operation (`decode_refresh_token`) accept a
token only if its signature verifies, it is unexpired, and its scope
equals the expected one — in particular a refresh-scoped token is
always rejected by the access-expecting operation.  `confirmEmail`
(`get_email_from_token`), however, checks only signature and expiry and
accepts a token of ANY scope. -/
theorem c1_scope_enforcement :
    (∀ (t : Token) (now : Int) (e : Option String),
      decode_refresh_token t now = .ok e →
      t.signedOk = true ∧ now ≤ t.payload.exp ∧ t.payload.scope = some "refresh_token") ∧
    (∀ (t : Token) (now : Int) (db : Db) (cache : Cache) (u : Account),
      (get_current_user t now db cache).1.result = .ok u →
      t.signedOk = true ∧ now ≤ t.payload.exp ∧ t.payload.scope = some "access_token") ∧
    (∀ (t : Token) (now : Int) (db : Db) (cache : Cache),
      t.payload.scope = some "refresh_token" →
      (get_current_user t now db cache).1.result =
        .httpError 401 "Could not validate credentials") ∧
    (∀ (t : Token) (now : Int) (e : Option String),
      get_email_from_token t now = .ok e →
      t.signedOk = true ∧ now ≤ t.payload.exp) ∧
    (∀ (t : Token) (now : Int),
      t.signedOk = true → now ≤ t.payload.exp →
      get_email_from_token t now = .ok t.payload.sub) := by
  refine ⟨?_, ?_, ?_, ?_, ?_⟩
  · intro t now e h
    unfold decode_refresh_token jwtDecode at h
    by_cases hv : t.signedOk = true ∧ now ≤ t.payload.exp
    · refine ⟨hv.1, hv.2, ?_⟩
      simp only [hv.1, hv.2, and_self, if_true, true_and] at h
      cases hs : t.payload.scope with
      | none => rw [hs] at h; exact absurd h (by simp)
      | some s =>
        rw [hs] at h
        by_cases he : s = "refresh_token"
        · rw [he]
        · simp [he] at h
    · rw [if_neg (by simpa using hv)] at h
      exact absurd h (by simp)
  · intro t now db cache u h
    unfold get_current_user jwtDecode at h
    by_cases hv : t.signedOk = true ∧ now ≤ t.payload.exp
    · refine ⟨hv.1, hv.2, ?_⟩
      simp only [hv.1, hv.2, and_self, if_true] at h
      cases hs : t.payload.scope with
      | none => rw [hs] at h; exact absurd h (by simp)
      | some s =>
        rw [hs] at h
        by_cases he : s = "access_token"
        · rw [he]
        · simp only [he, if_false] at h
          exact absurd h (by simp)
    · rw [if_neg (by simpa using hv)] at h
      exact absurd h (by simp)
  · intro t now db cache hs
    unfold get_current_user jwtDecode
    by_cases hv : t.signedOk = true ∧ now ≤ t.payload.exp
    · simp only [hv.1, hv.2, and_self, if_true, hs]
      simp
    · rw [if_neg (by simpa using hv)]
  · intro t now e h
    unfold get_email_from_token jwtDecode at h
    by_cases hv : t.signedOk = true ∧ now ≤ t.payload.exp
    · exact ⟨hv.1, hv.2⟩
    · rw [if_neg (by simpa using hv)] at h
      exact absurd h (by simp)
  · intro t now h1 h2
    unfold get_email_from_token jwtDecode
    rw [if_pos ⟨h1, h2⟩]

theorem c1_witness :
    ((create_refresh_token (some "a@x.com") none 0).signedOk = true ∧
      (5 : Int) ≤ (create_refresh_token (some "a@x.com") none 0).payload.exp ∧
      (create_refresh_token (some "a@x.com") none 0).payload.scope = some "refresh_token") ∧
    (get_current_user (create_refresh_token (some "a@x.com") none 0) 5 [] []).1.result =
      .httpError 401 "Could not validate credentials" :=
  ⟨c1_scope_enforcement.1 (create_refresh_token (some "a@x.com") none 0) 5
      (some "a@x.com") (by decide),
    c1_scope_enforcement.2.2.1 (create_refresh_token (some "a@x.com") none 0) 5 [] [] rfl⟩

/-- C5 counterexample: a malformed token (signature does not verify)
presented to the refresh operation is mapped to HTTP 401
("Could not validate credentials"), not 422 as the claim requires
uniformly; the identity-resolution operation likewise answers 401. -/
theorem c5_counterexample :
    jwtDecode ⟨⟨some "a@x.com", some "refresh_token", 0, 900⟩, false⟩ 0 = none ∧
    decode_refresh_token ⟨⟨some "a@x.com", some "refresh_token", 0, 900⟩, false⟩ 0 =
      .httpError 401 "Could not validate credentials" ∧
    (refresh_token_route ⟨⟨some "a@x.com", some "refresh_token", 0, 900⟩, false⟩ 0 []).1 =
      .httpError 401 "Could not validate credentials" ∧
    (get_current_user ⟨⟨some "a@x.com", some "access_token", 0, 900⟩, false⟩ 0 [] []).1.result =
      .httpError 401 "Could not validate credentials" := by
  decide

/-- C5 (amended): decode failures on malformed tokens map to 422 ONLY on
the confirm-email path; on the refresh and identity-resolution paths
they map to 401, as do scope mismatches on either of those two paths
(a validly-signed, unexpired token whose scope is not the expected one
gets 401 from both); the auth-policy
rejections (unknown account, unconfirmed, bad password on login;
revoked refresh token) all map to 401, and the confirm-email
verification error for an absent account maps to 400. -/
theorem c5_status_mapping :
    (∀ (t : Token) (now : Int), jwtDecode t now = none →
      decode_refresh_token t now = .httpError 401 "Could not validate credentials") ∧
    (∀ (t : Token) (now : Int) (db : Db), jwtDecode t now = none →
      refresh_token_route t now db = (.httpError 401 "Could not validate credentials", db)) ∧
    (∀ (t : Token) (now : Int) (db : Db) (cache : Cache), jwtDecode t now = none →
      (get_current_user t now db cache).1.result =
        .httpError 401 "Could not validate credentials") ∧
    (∀ (t : Token) (now : Int), jwtDecode t now = none →
      get_email_from_token t now = .httpError 422 "Invalid token for email verification") ∧
    (∀ (t : Token) (now : Int) (db : Db), jwtDecode t now = none →
      confirmed_email_route t now db =
        (.httpError 422 "Invalid token for email verification", db)) ∧
    (∀ (t : Token) (now : Int) (s : String), t.signedOk = true → now ≤ t.payload.exp →
      t.payload.scope = some s → s ≠ "refresh_token" →
      decode_refresh_token t now = .httpError 401 "Invalid scope for token") ∧
    (∀ (t : Token) (now : Int) (db : Db) (cache : Cache) (s : String),
      t.signedOk = true → now ≤ t.payload.exp →
      t.payload.scope = some s → s ≠ "access_token" →
      (get_current_user t now db cache).1.result =
        .httpError 401 "Could not validate credentials") ∧
    (∀ (username pw : String) (verify : String → String → Bool) (now : Int) (db : Db)
        (c : Nat) (d : String),
      (login username pw verify now db).1 = .httpError c d → c = 401) ∧
    (∀ (t : Token) (now : Int) (db : Db) (e : Option String) (u : Account),
      decode_refresh_token t now = .ok e → get_user_by_email e db = some u →
      u.refresh_token ≠ some t →
      (refresh_token_route t now db).1 = .httpError 401 "Invalid refresh token") ∧
    (∀ (t : Token) (now : Int) (db : Db) (e : Option String),
      get_email_from_token t now = .ok e → get_user_by_email e db = none →
      (confirmed_email_route t now db).1 = .httpError 400 "Verification error") := by
  refine ⟨fun t now h => by simp [decode_refresh_token, h],
    fun t now db h => by simp [refresh_token_route, decode_refresh_token, h],
    fun t now db cache h => by simp [get_current_user, h],
    fun t now h => by simp [get_email_from_token, h],
    fun t now db h => by simp [confirmed_email_route, get_email_from_token, h],
    fun t now s h1 h2 hs hne => by
      simp [decode_refresh_token, jwtDecode, h1, h2, hs, hne],
    fun t now db cache s h1 h2 hs hne => by
      simp [get_current_user, jwtDecode, h1, h2, hs, hne],
    ?_,
    fun t now db e u hdec hu hne => by
      simp [refresh_token_route, hdec, hu, hne],
    fun t now db e hdec hu => by
      simp [confirmed_email_route, hdec, hu]⟩
  intro username pw verify now db c d h
  unfold login at h
  cases hu : get_user_by_email (some username) db with
  | none =>
    rw [hu] at h
    simp only [Res.httpError.injEq] at h
    exact h.1.symm
  | some u =>
    rw [hu] at h
    by_cases hc : u.confirmed
    · by_cases hv : verify pw u.password
      · simp [hc, hv] at h
      · simp only [hc, hv, not_true, not_false_iff, if_false, if_true,
          Bool.not_eq_true] at h
        simp only [Res.httpError.injEq] at h
        exact h.1.symm
    · simp only [hc, not_false_iff, if_true, Bool.not_eq_true] at h
      simp only [Res.httpError.injEq] at h
      exact h.1.symm

theorem c5_witness :
    get_email_from_token ⟨⟨some "a@x.com", none, 0, 900⟩, false⟩ 0 =
      .httpError 422 "Invalid token for email verification" ∧
    decode_refresh_token ⟨⟨some "a@x.com", none, 0, 900⟩, false⟩ 0 =
      .httpError 401 "Could not validate credentials" :=
  ⟨c5_status_mapping.2.2.2.1 ⟨⟨some "a@x.com", none, 0, 900⟩, false⟩ 0 (by decide),
    c5_status_mapping.1 ⟨⟨some "a@x.com", none, 0, 900⟩, false⟩ 0 (by decide)⟩

/-- C3 counterexample: with a valid access token, an account in the
store AND a fresh cache entry for its email, the handler still performs
one Account Store lookup (the unconditional query at
src/services/auth.py line 165) — contradicting the claim that the store
is consulted only when the cache lookup misses and that a cache hit
involves no store lookup. -/
theorem c3_counterexample :
    cacheGet [("user:a@x.com", sampleAccount)] ("user:" ++ "a@x.com") = some sampleAccount ∧
    (get_current_user (create_access_token (some "a@x.com") none 0) 0 [sampleAccount]
        [("user:a@x.com", sampleAccount)]).1 =
      ⟨.ok sampleAccount, 1, none⟩ ∧
    (get_current_user (create_access_token (some "a@x.com") none 0) 0 [sampleAccount]
        [("user:a@x.com", sampleAccount)]).1.storeLookups ≠ 0 := by
  decide

/-- C3 (amended): with a valid access token whose subject has an
account, `get_current_user` queries the Account Store once
unconditionally before consulting the Identity Cache; on a cache hit it
returns the cached snapshot with no further store lookup (one lookup in
total, no cache write); on a cache miss it queries the store a second
time, returns the loaded account, and populates the cache under
`user:{email}` with a 900-second TTL. -/
theorem c3_identity_cache (t : Token) (now : Int) (db : Db) (cache : Cache)
    (e : String) (u : Account)
    (hsig : t.signedOk = true) (hexp : now ≤ t.payload.exp)
    (hscope : t.payload.scope = some "access_token") (hsub : t.payload.sub = some e)
    (hu : get_user_by_email (some e) db = some u) :
    (cacheGet cache ("user:" ++ e) = none →
      get_current_user t now db cache =
        (⟨.ok u, 2, some ("user:" ++ e, u, 900)⟩, cacheSet cache ("user:" ++ e) u)) ∧
    (∀ c, cacheGet cache ("user:" ++ e) = some c →
      get_current_user t now db cache = (⟨.ok c, 1, none⟩, cache)) := by
  have hdec : jwtDecode t now = some t.payload := by simp [jwtDecode, hsig, hexp]
  constructor
  · intro hmiss
    simp [get_current_user, hdec, hscope, hsub, hu, hmiss]
  · intro c hhit
    simp [get_current_user, hdec, hscope, hsub, hu, hhit]

theorem c3_witness :
    cacheGet [] ("user:" ++ "a@x.com") = none ∧
    get_current_user (create_access_token (some "a@x.com") none 0) 0 [sampleAccount] [] =
      (⟨.ok sampleAccount, 2, some ("user:" ++ "a@x.com", sampleAccount, 900)⟩,
        cacheSet [] ("user:" ++ "a@x.com") sampleAccount) :=
  ⟨rfl,
    (c3_identity_cache (create_access_token (some "a@x.com") none 0) 0 [sampleAccount] []
      "a@x.com" sampleAccount rfl (by decide) rfl rfl (by decide)).1 rfl⟩

theorem confirmed_mono_update (eq : String) (u u' : Account) (tok : Option Token) (db : Db)
    (h : get_user_by_email (some eq) db = some u) :
    ∃ w, get_user_by_email (some eq) (update_token u' tok db) = some w ∧
      w.confirmed = u.confirmed := by
  rw [get_user_update_token, h]
  refine ⟨_, rfl, ?_⟩
  dsimp only
  split <;> rfl

theorem confirmed_mono_repo (eq : String) (u : Account) (em : Option String) (db : Db)
    (h : get_user_by_email (some eq) db = some u) (hc : u.confirmed = true) :
    ∃ w, get_user_by_email (some eq) (confirmed_email_repo em db) = some w ∧
      w.confirmed = true := by
  rw [get_user_confirmed_repo, h]
  refine ⟨_, rfl, ?_⟩
  dsimp only
  split
  · rfl
  · exact hc

theorem login_snd_cases (username pw : String) (verify : String → String → Bool)
    (now : Int) (db : Db) :
    (login username pw verify now db).2 = db ∨
    ∃ u tok, (login username pw verify now db).2 = update_token u tok db := by
  unfold login
  cases hu : get_user_by_email (some username) db with
  | none => exact Or.inl rfl
  | some u =>
    by_cases hc : u.confirmed
    · by_cases hv : verify pw u.password
      · exact Or.inr ⟨u, some (create_refresh_token (some u.email) none now), by simp [hc, hv]⟩
      · exact Or.inl (by simp [hc, hv])
    · exact Or.inl (by simp [hc])

theorem refresh_snd_cases (t : Token) (now : Int) (db : Db) :
    (refresh_token_route t now db).2 = db ∨
    ∃ u tok, (refresh_token_route t now db).2 = update_token u tok db := by
  unfold refresh_token_route
  cases hd : decode_refresh_token t now with
  | ok e =>
    cases hu : get_user_by_email e db with
    | none => exact Or.inl (by simp [hu])
    | some u =>
      by_cases hne : u.refresh_token = some t
      · exact Or.inr ⟨u, some (create_refresh_token e none now), by simp [hu, hne]⟩
      · exact Or.inr ⟨u, none, by simp [hu, hne]⟩
  | httpError c d => exact Or.inl rfl
  | runtimeError m => exact Or.inl rfl

theorem confirm_snd_cases (t : Token) (now : Int) (db : Db) :
    (confirmed_email_route t now db).2 = db ∨
    ∃ e, (confirmed_email_route t now db).2 = confirmed_email_repo e db := by
  unfold confirmed_email_route
  cases hd : get_email_from_token t now with
  | ok e =>
    cases hu : get_user_by_email e db with
    | none => exact Or.inl (by simp [hu])
    | some u =>
      by_cases hc : u.confirmed
      · exact Or.inl (by simp [hu, hc])
      · exact Or.inr ⟨e, by simp [hu, hc]⟩
  | httpError c d => exact Or.inl rfl
  | runtimeError m => exact Or.inl rfl

theorem signup_snd_cases (username email pw : String) (hash : String → String)
    (avatar : Option String) (db : Db) :
    (signup username email pw hash avatar db).2 = db ∨
    ∃ nu, (signup username email pw hash avatar db).2 = db ++ [nu] := by
  unfold signup
  cases hu : get_user_by_email (some email) db with
  | none => exact Or.inr ⟨_, rfl⟩
  | some u => exact Or.inl rfl

/-- C6: confirm-email fails 400 "Verification error" when the decoded
subject matches no account; returns "Your email is already confirmed"
without touching state when the account is already confirmed; otherwise
sets `confirmed` to true — so a second call with the same valid token
answers "already confirmed", and no session-core operation (login,
refresh, confirm, signup) ever resets a confirmed account to
unconfirmed. -/
theorem c6_confirm_idempotent (t : Token) (now : Int) (db : Db) :
    (∀ e, get_email_from_token t now = .ok e → get_user_by_email e db = none →
      confirmed_email_route t now db = (.httpError 400 "Verification error", db)) ∧
    (∀ e u, get_email_from_token t now = .ok e → get_user_by_email e db = some u →
      u.confirmed = true →
      confirmed_email_route t now db = (.ok "Your email is already confirmed", db)) ∧
    (∀ e u, get_email_from_token t now = .ok e → get_user_by_email e db = some u →
      u.confirmed = false →
      confirmed_email_route t now db = (.ok "Email confirmed", confirmed_email_repo e db) ∧
      get_user_by_email e (confirmed_email_repo e db) = some { u with confirmed := true }) ∧
    (∀ e u, get_email_from_token t now = .ok e → get_user_by_email e db = some u →
      (confirmed_email_route t now (confirmed_email_route t now db).2).1 =
        .ok "Your email is already confirmed") ∧
    (∀ eq u, get_user_by_email (some eq) db = some u → u.confirmed = true →
      (∀ (username pw : String) (verify : String → String → Bool) (now2 : Int),
        ∃ w, get_user_by_email (some eq) (login username pw verify now2 db).2 = some w ∧
          w.confirmed = true) ∧
      (∀ (t2 : Token) (now2 : Int),
        ∃ w, get_user_by_email (some eq) (refresh_token_route t2 now2 db).2 = some w ∧
          w.confirmed = true) ∧
      (∀ (t2 : Token) (now2 : Int),
        ∃ w, get_user_by_email (some eq) (confirmed_email_route t2 now2 db).2 = some w ∧
          w.confirmed = true) ∧
      (∀ (username2 email2 pw2 : String) (hash : String → String) (avatar : Option String),
        ∃ w, get_user_by_email (some eq)
            (signup username2 email2 pw2 hash avatar db).2 = some w ∧
          w.confirmed = true)) := by
  have repoLookup : ∀ (e : Option String) (u : Account), get_user_by_email e db = some u →
      get_user_by_email e (confirmed_email_repo e db) = some { u with confirmed := true } := by
    intro e u hu
    cases e with
    | none => exact absurd hu (by simp [get_user_by_email])
    | some e' =>
      rw [get_user_confirmed_repo, hu]
      have he : u.email = e' := get_user_email_matches e' u db hu
      simp [he]
  refine ⟨fun e hdec habs => by simp [confirmed_email_route, hdec, habs],
    fun e u hdec hu hc => by simp [confirmed_email_route, hdec, hu, hc],
    fun e u hdec hu hc => ⟨by simp [confirmed_email_route, hdec, hu, hc], repoLookup e u hu⟩,
    fun e u hdec hu => ?_, fun eq u hu hc => ⟨?_, ?_, ?_, ?_⟩⟩
  · by_cases hc : u.confirmed
    · have h1 : (confirmed_email_route t now db).2 = db := by
        simp [confirmed_email_route, hdec, hu, hc]
      rw [h1]
      simp [confirmed_email_route, hdec, hu, hc]
    · have h1 : (confirmed_email_route t now db).2 = confirmed_email_repo e db := by
        simp [confirmed_email_route, hdec, hu, hc]
      rw [h1]
      simp [confirmed_email_route, hdec, repoLookup e u hu]
  · intro username pw verify now2
    rcases login_snd_cases username pw verify now2 db with h | ⟨u', tok, h⟩
    · exact ⟨u, by rw [h]; exact hu, hc⟩
    · rw [h]
      obtain ⟨w, hw, hwc⟩ := confirmed_mono_update eq u u' tok db hu
      exact ⟨w, hw, hwc.trans hc⟩
  · intro t2 now2
    rcases refresh_snd_cases t2 now2 db with h | ⟨u', tok, h⟩
    · exact ⟨u, by rw [h]; exact hu, hc⟩
    · rw [h]
      obtain ⟨w, hw, hwc⟩ := confirmed_mono_update eq u u' tok db hu
      exact ⟨w, hw, hwc.trans hc⟩
  · intro t2 now2
    rcases confirm_snd_cases t2 now2 db with h | ⟨em, h⟩
    · exact ⟨u, by rw [h]; exact hu, hc⟩
    · rw [h]
      exact confirmed_mono_repo eq u em db hu hc
  · intro username2 email2 pw2 hash avatar
    rcases signup_snd_cases username2 email2 pw2 hash avatar db with h | ⟨nu, h⟩
    · exact ⟨u, by rw [h]; exact hu, hc⟩
    · rw [h]
      exact ⟨u, get_user_append_of_some eq u db [nu] hu, hc⟩

theorem c6_witness :
    get_email_from_token (create_email_token (some "c@x.com") 0) 5 = .ok (some "c@x.com") ∧
    get_user_by_email (some "c@x.com")
        [(⟨1, "cal", "c@x.com", "H", none, none, false⟩ : Account)] =
      some ⟨1, "cal", "c@x.com", "H", none, none, false⟩ ∧
    (confirmed_email_route (create_email_token (some "c@x.com") 0) 5
        (confirmed_email_route (create_email_token (some "c@x.com") 0) 5
          [(⟨1, "cal", "c@x.com", "H", none, none, false⟩ : Account)]).2).1 =
      .ok "Your email is already confirmed" :=
  ⟨by decide, by decide,
    (c6_confirm_idempotent (create_email_token (some "c@x.com") 0) 5
        [⟨1, "cal", "c@x.com", "H", none, none, false⟩]).2.2.2.1
      (some "c@x.com") ⟨1, "cal", "c@x.com", "H", none, none, false⟩
      (by decide) (by decide)⟩

/-- C2 counterexample: JWT encoding is deterministic at second
granularity, so a `refresh(R1)` issued at the SAME timestamp as the
login that produced `R1` returns a refresh token equal to `R1` — the
claim that the returned refresh token always differs from the presented
one fails.  Here login at time 0 stores `R1` and `refresh(R1)` at time
0 returns exactly `R1` again. -/
theorem c2_counterexample :
    (login "a@x.com" "pw" sampleVerify 0 [sampleAccount]).1 =
      .ok ⟨create_access_token (some "a@x.com") none 0,
           create_refresh_token (some "a@x.com") none 0, "bearer"⟩ ∧
    (refresh_token_route (create_refresh_token (some "a@x.com") none 0) 0
        (login "a@x.com" "pw" sampleVerify 0 [sampleAccount]).2).1 =
      .ok ⟨create_access_token (some "a@x.com") none 0,
           create_refresh_token (some "a@x.com") none 0, "bearer"⟩ := by
  decide

/-- C2 (amended): for every validly-decoding refresh token presented to
refresh on an EXISTING account: on mismatch with the stored
`refresh_token` the route fails 401 "Invalid refresh token" and clears
the stored token; on match it succeeds, stores the newly issued refresh
token, and the new refresh token differs from the presented one
whenever the call's timestamp differs from the presented token's
`iat` (at equal timestamps the identical token is re-issued).  In the
login→refresh→refresh scenario with the first refresh strictly later
than login, `refresh(R1)` succeeds with `R2 ≠ R1` and a second
`refresh(R1)` fails 401, leaving the account with no live refresh
token. -/
theorem c2_refresh_rotation :
    (∀ (db : Db) (t : Token) (now : Int) (email : Option String) (u : Account),
      decode_refresh_token t now = .ok email →
      get_user_by_email email db = some u →
      (u.refresh_token ≠ some t →
        refresh_token_route t now db =
          (.httpError 401 "Invalid refresh token", update_token u none db) ∧
        get_user_by_email email (update_token u none db) =
          some { u with refresh_token := none }) ∧
      (u.refresh_token = some t →
        refresh_token_route t now db =
          (.ok ⟨create_access_token email none now, create_refresh_token email none now,
                "bearer"⟩,
           update_token u (some (create_refresh_token email none now)) db) ∧
        get_user_by_email email
            (update_token u (some (create_refresh_token email none now)) db) =
          some { u with refresh_token := some (create_refresh_token email none now) } ∧
        (t.payload.iat ≠ now → create_refresh_token email none now ≠ t))) ∧
    (∀ (db : Db) (username pw : String) (verify : String → String → Bool)
        (t1 t2 t3 : Int) (u : Account),
      get_user_by_email (some username) db = some u →
      u.confirmed = true →
      verify pw u.password = true →
      t1 < t2 → t2 ≤ t1 + 604800 → t3 ≤ t1 + 604800 →
      ∃ db1 db2 db3,
        login username pw verify t1 db =
          (.ok ⟨create_access_token (some u.email) none t1,
                create_refresh_token (some u.email) none t1, "bearer"⟩, db1) ∧
        refresh_token_route (create_refresh_token (some u.email) none t1) t2 db1 =
          (.ok ⟨create_access_token (some u.email) none t2,
                create_refresh_token (some u.email) none t2, "bearer"⟩, db2) ∧
        create_refresh_token (some u.email) none t2 ≠
          create_refresh_token (some u.email) none t1 ∧
        refresh_token_route (create_refresh_token (some u.email) none t1) t3 db2 =
          (.httpError 401 "Invalid refresh token", db3) ∧
        get_user_by_email (some u.email) db3 =
          some { u with refresh_token := none }) := by
  have lookupAfter : ∀ (e : Option String) (u : Account) (tok : Option Token) (db : Db),
      get_user_by_email e db = some u →
      get_user_by_email e (update_token u tok db) =
        some { u with refresh_token := tok } := by
    intro e u tok db hu
    cases e with
    | none => exact absurd hu (by simp [get_user_by_email])
    | some e' =>
      rw [get_user_update_token, hu]
      simp
  constructor
  · intro db t now email u hdec hu
    constructor
    · intro hne
      exact ⟨by simp [refresh_token_route, hdec, hu, hne],
        lookupAfter email u none db hu⟩
    · intro heq
      refine ⟨by simp [refresh_token_route, hdec, hu, heq],
        lookupAfter email u (some (create_refresh_token email none now)) db hu,
        fun hiat hbad => hiat ?_⟩
      rw [← hbad]
      rfl
  · intro db username pw verify t1 t2 t3 u hu hc hv h12 h2e h3e
    have hue : u.email = username := get_user_email_matches username u db hu
    have hu' : get_user_by_email (some u.email) db = some u := by rw [hue]; exact hu
    have hlogin : login username pw verify t1 db =
        (.ok ⟨create_access_token (some u.email) none t1,
              create_refresh_token (some u.email) none t1, "bearer"⟩,
         update_token u (some (create_refresh_token (some u.email) none t1)) db) := by
      simp [login, hu, hc, hv]
    have hu1 : get_user_by_email (some u.email)
        (update_token u (some (create_refresh_token (some u.email) none t1)) db) =
        some { u with refresh_token := some (create_refresh_token (some u.email) none t1) } :=
      lookupAfter (some u.email) u (some (create_refresh_token (some u.email) none t1)) db hu'
    have hdec2 : decode_refresh_token (create_refresh_token (some u.email) none t1) t2 =
        .ok (some u.email) := by
      simp [decode_refresh_token, jwtDecode, create_refresh_token, h2e]
    have hdec3 : decode_refresh_token (create_refresh_token (some u.email) none t1) t3 =
        .ok (some u.email) := by
      simp [decode_refresh_token, jwtDecode, create_refresh_token, h3e]
    have hRne : create_refresh_token (some u.email) none t2 ≠
        create_refresh_token (some u.email) none t1 := by
      intro hbad
      have : t2 = t1 := congrArg (fun x => x.payload.iat) hbad
      omega
    have hrefresh1 : refresh_token_route (create_refresh_token (some u.email) none t1) t2
        (update_token u (some (create_refresh_token (some u.email) none t1)) db) =
        (.ok ⟨create_access_token (some u.email) none t2,
              create_refresh_token (some u.email) none t2, "bearer"⟩,
         update_token { u with refresh_token := some (create_refresh_token (some u.email) none t1) }
           (some (create_refresh_token (some u.email) none t2))
           (update_token u (some (create_refresh_token (some u.email) none t1)) db)) := by
      simp [refresh_token_route, hdec2, hu1]
    have hu2 : get_user_by_email (some u.email)
        (update_token { u with refresh_token := some (create_refresh_token (some u.email) none t1) }
          (some (create_refresh_token (some u.email) none t2))
          (update_token u (some (create_refresh_token (some u.email) none t1)) db)) =
        some { u with refresh_token := some (create_refresh_token (some u.email) none t2) } :=
      lookupAfter (some u.email)
        { u with refresh_token := some (create_refresh_token (some u.email) none t1) }
        (some (create_refresh_token (some u.email) none t2))
        (update_token u (some (create_refresh_token (some u.email) none t1)) db) hu1
    have hmismatch : ({ u with
        refresh_token := some (create_refresh_token (some u.email) none t2) } : Account).refresh_token ≠
        some (create_refresh_token (some u.email) none t1) := by
      simp only [ne_eq, Option.some.injEq]
      exact hRne
    have hrefresh2 : refresh_token_route (create_refresh_token (some u.email) none t1) t3
        (update_token { u with refresh_token := some (create_refresh_token (some u.email) none t1) }
          (some (create_refresh_token (some u.email) none t2))
          (update_token u (some (create_refresh_token (some u.email) none t1)) db)) =
        (.httpError 401 "Invalid refresh token",
         update_token { u with refresh_token := some (create_refresh_token (some u.email) none t2) }
           none
           (update_token { u with refresh_token := some (create_refresh_token (some u.email) none t1) }
             (some (create_refresh_token (some u.email) none t2))
             (update_token u (some (create_refresh_token (some u.email) none t1)) db))) := by
      simp [refresh_token_route, hdec3, hu2, hmismatch]
    have hu3 : get_user_by_email (some u.email)
        (update_token { u with refresh_token := some (create_refresh_token (some u.email) none t2) }
          none
          (update_token { u with refresh_token := some (create_refresh_token (some u.email) none t1) }
            (some (create_refresh_token (some u.email) none t2))
            (update_token u (some (create_refresh_token (some u.email) none t1)) db))) =
        some { u with refresh_token := none } :=
      lookupAfter (some u.email)
        { u with refresh_token := some (create_refresh_token (some u.email) none t2) }
        none
        (update_token { u with refresh_token := some (create_refresh_token (some u.email) none t1) }
          (some (create_refresh_token (some u.email) none t2))
          (update_token u (some (create_refresh_token (some u.email) none t1)) db)) hu2
    exact ⟨_, _, _, hlogin, hrefresh1, hRne, hrefresh2, hu3⟩

theorem c2_witness :
    ∃ db1 db2 db3,
      login "a@x.com" "pw" sampleVerify 0 [sampleAccount] =
        (.ok ⟨create_access_token (some sampleAccount.email) none 0,
              create_refresh_token (some sampleAccount.email) none 0, "bearer"⟩, db1) ∧
      refresh_token_route (create_refresh_token (some sampleAccount.email) none 0) 10 db1 =
        (.ok ⟨create_access_token (some sampleAccount.email) none 10,
              create_refresh_token (some sampleAccount.email) none 10, "bearer"⟩, db2) ∧
      create_refresh_token (some sampleAccount.email) none 10 ≠
        create_refresh_token (some sampleAccount.email) none 0 ∧
      refresh_token_route (create_refresh_token (some sampleAccount.email) none 0) 20 db2 =
        (.httpError 401 "Invalid refresh token", db3) ∧
      get_user_by_email (some sampleAccount.email) db3 =
        some { sampleAccount with refresh_token := none } :=
  c2_refresh_rotation.2 [sampleAccount] "a@x.com" "pw" sampleVerify 0 10 20 sampleAccount
    (by decide) (by decide) (by decide) (by decide) (by decide) (by decide)

end HW13
